import Mathlib

/-!
# Verification of the bawaba backend (`main.py`)

A shallow embedding of the FastAPI food-delivery rewards backend in
`src/main.py`, together with proofs about its request handlers.

Conventions of the embedding:

* Python strings are Lean `String`s; `len` is `String.length` (both count
  Unicode code points), `str.startswith` is `pyStartsWith`, the `in`
  substring test is `pyIn`, and `str.lower` maps `Char.toLower` over the
  code points (faithful on the ASCII range the keyword rules use).
* Python truthiness: a string is truthy iff non-empty (`pyTruthyStr`);
  a float is truthy iff non-zero (`pyTruthyFloat`).  Floats that the
  handlers merely carry around are modelled as `ℚ`.
* `hashlib.sha256` is implemented in full (FIPS 180-4) over byte lists,
  with 32-bit words as `Nat` reduced mod `2^32`; `str.encode()` is the
  UTF-8 encoder `pyEncode`.
* Each HTTP handler is a pure function from its request (plus the
  environmental inputs it reads: geocoder outcome, current timestamp,
  file-existence flags, parsed file rows) to a response together with the
  list of side effects it performs, in order.  File writes are assumed to
  succeed (the handlers' `500` write-failure branches are environmental
  and not needed by any claim).
-/

set_option maxRecDepth 100000

/-! ## Python string primitives -/

/-- Does the pattern `p` occur at the very front of `s`?  (Helper for the
models of `str.startswith` and the `in` operator.) -/
def prefMatch : List Char → List Char → Bool
  | [], _ => true
  | _ :: _, [] => false
  | a :: ps, b :: ss => a == b && prefMatch ps ss

/-- Does the pattern occur as a contiguous substring? -/
def subOccurs (p : List Char) : List Char → Bool
  | [] => p.isEmpty
  | c :: t => prefMatch p (c :: t) || subOccurs p t

/-- Model of Python `needle in hay` on strings. -/
def pyIn (needle hay : String) : Bool := subOccurs needle.data hay.data

/-- Model of Python `s.startswith(p)`. -/
def pyStartsWith (s p : String) : Bool := prefMatch p.data s.data

/-- Model of Python `s.lower()` (faithful on ASCII, where the
categorization keywords live). -/
def pyLower (s : String) : String := String.mk (s.data.map Char.toLower)

/-- Python truthiness of a string: non-empty. -/
def pyTruthyStr (s : String) : Bool := !(s == "")

/-- Python truthiness of a float: non-zero (`0.0` is falsy). -/
def pyTruthyFloat (x : ℚ) : Bool := if x = 0 then false else true

/-! ## SHA-256 (model of `hashlib.sha256`, FIPS 180-4)

Words are `Nat`s kept below `2^32`; bytes are `Nat`s below `256`. -/

def w32 : Nat := 4294967296

def mask32 : Nat := 4294967295

def add32 (a b : Nat) : Nat := (a + b) % w32

def not32 (a : Nat) : Nat := a ^^^ mask32

def rotr32 (n x : Nat) : Nat := ((x >>> n) ||| (x <<< (32 - n))) &&& mask32

def shaCh (e f g : Nat) : Nat := (e &&& f) ^^^ (not32 e &&& g)

def shaMaj (a b c : Nat) : Nat := (a &&& b) ^^^ (a &&& c) ^^^ (b &&& c)

def bigSigma0 (a : Nat) : Nat := rotr32 2 a ^^^ rotr32 13 a ^^^ rotr32 22 a

def bigSigma1 (e : Nat) : Nat := rotr32 6 e ^^^ rotr32 11 e ^^^ rotr32 25 e

def smallSigma0 (x : Nat) : Nat := rotr32 7 x ^^^ rotr32 18 x ^^^ (x >>> 3)

def smallSigma1 (x : Nat) : Nat := rotr32 17 x ^^^ rotr32 19 x ^^^ (x >>> 10)

/-- The 64 SHA-256 round constants (decimal). -/
def shaK : Array Nat := #[
  1116352408, 1899447441, 3049323471, 3921009573, 961987163, 1508970993,
  2453635748, 2870763221, 3624381080, 310598401, 607225278, 1426881987,
  1925078388, 2162078206, 2614888103, 3248222580, 3835390401, 4022224774,
  264347078, 604807628, 770255983, 1249150122, 1555081692, 1996064986,
  2554220882, 2821834349, 2952996808, 3210313671, 3336571891, 3584528711,
  113926993, 338241895, 666307205, 773529912, 1294757372, 1396182291,
  1695183700, 1986661051, 2177026350, 2456956037, 2730485921, 2820302411,
  3259730800, 3345764771, 3516065817, 3600352804, 4094571909, 275423344,
  430227734, 506948616, 659060556, 883997877, 958139571, 1322822218,
  1537002063, 1747873779, 1955562222, 2024104815, 2227730452, 2361852424,
  2428436474, 2756734187, 3204031479, 3329325298]

/-- The SHA-256 initial hash value (decimal). -/
def shaH0 : List Nat :=
  [1779033703, 3144134277, 1013904242, 2773480762,
   1359893119, 2600822924, 528734635, 1541459225]

/-- Pad a byte message: append `0x80`, zeros, and the 64-bit big-endian
bit length, to a multiple of 64 bytes. -/
def shaPad (ms : List Nat) : List Nat :=
  let l := ms.length
  let z := (64 - ((l + 9) % 64)) % 64
  ms ++ [0x80] ++ List.replicate z 0 ++
    (List.range 8).map (fun i => ((8 * l) >>> (8 * (7 - i))) % 256)

/-- Group bytes into big-endian 32-bit words. -/
def bytesToWords : List Nat → List Nat
  | b0 :: b1 :: b2 :: b3 :: rest =>
      (b0 * 16777216 + b1 * 65536 + b2 * 256 + b3) :: bytesToWords rest
  | _ => []

/-- Split a word list into 16-word blocks (structural recursion so that it
reduces inside the kernel; padded input is always a multiple of 16 words,
so the ragged final case never fires on real input). -/
def chunks16 : List Nat → List (List Nat)
  | w0 :: w1 :: w2 :: w3 :: w4 :: w5 :: w6 :: w7 ::
    w8 :: w9 :: w10 :: w11 :: w12 :: w13 :: w14 :: w15 :: rest =>
      [w0, w1, w2, w3, w4, w5, w6, w7, w8, w9, w10, w11, w12, w13, w14, w15] ::
        chunks16 rest
  | [] => []
  | l => [l]

/-- Extend a 16-word block to the 64-word message schedule. -/
def shaSchedule (block : List Nat) : Array Nat :=
  (List.range 48).foldl
    (fun w j =>
      let i := j + 16
      w.push (add32 (add32 (smallSigma1 (w.getD (i - 2) 0)) (w.getD (i - 7) 0))
                    (add32 (smallSigma0 (w.getD (i - 15) 0)) (w.getD (i - 16) 0))))
    block.toArray

/-- One compression round. -/
def shaRound (ki wi : Nat) :
    Nat × Nat × Nat × Nat × Nat × Nat × Nat × Nat →
    Nat × Nat × Nat × Nat × Nat × Nat × Nat × Nat
  | (a, b, c, d, e, f, g, h) =>
    let t1 := add32 h (add32 (bigSigma1 e) (add32 (shaCh e f g) (add32 ki wi)))
    let t2 := add32 (bigSigma0 a) (shaMaj a b c)
    (add32 t1 t2, a, b, c, add32 d t1, e, f, g)

/-- Compress one 16-word block into the running hash (8 words). -/
def shaCompress (hs : List Nat) (block : List Nat) : List Nat :=
  match hs with
  | [h0, h1, h2, h3, h4, h5, h6, h7] =>
    let w := shaSchedule block
    let fin := (List.range 64).foldl
      (fun s i => shaRound (shaK.getD i 0) (w.getD i 0) s)
      (h0, h1, h2, h3, h4, h5, h6, h7)
    match fin with
    | (a, b, c, d, e, f, g, h) =>
      [add32 h0 a, add32 h1 b, add32 h2 c, add32 h3 d,
       add32 h4 e, add32 h5 f, add32 h6 g, add32 h7 h]
  | _ => hs

/-- Big-endian bytes of a 32-bit word. -/
def wordBytes (x : Nat) : List Nat :=
  [(x >>> 24) % 256, (x >>> 16) % 256, (x >>> 8) % 256, x % 256]

/-- SHA-256 digest (32 bytes) of a byte message. -/
def sha256Bytes (ms : List Nat) : List Nat :=
  let blocks := chunks16 (bytesToWords (shaPad ms))
  ((blocks.foldl shaCompress shaH0).map wordBytes).flatten

/-- Lower-case hex character of a nibble. -/
def hexChar (n : Nat) : Char :=
  if n < 10 then Char.ofNat (48 + n) else Char.ofNat (87 + n)

/-- Lower-case hex string of a byte list (model of `.hexdigest()`). -/
def hexOfBytes (bs : List Nat) : String :=
  String.mk ((bs.map fun b => [hexChar (b / 16), hexChar (b % 16)]).flatten)

/-- UTF-8 bytes of a single code point. -/
def utf8Char (c : Char) : List Nat :=
  let n := c.toNat
  if n < 0x80 then [n]
  else if n < 0x800 then [0xc0 + n / 64, 0x80 + n % 64]
  else if n < 0x10000 then
    [0xe0 + n / 4096, 0x80 + (n / 64) % 64, 0x80 + n % 64]
  else
    [0xf0 + n / 262144, 0x80 + (n / 4096) % 64, 0x80 + (n / 64) % 64, 0x80 + n % 64]

/-- Model of Python `s.encode()` (UTF-8). -/
def pyEncode (s : String) : List Nat := (s.data.map utf8Char).flatten

/-- Model of `sha256(s.encode()).hexdigest()`. -/
def sha256HexDigest (s : String) : String := hexOfBytes (sha256Bytes (pyEncode s))

/-! ## Request and response model

`Order` and `Receipt` mirror the two pydantic models.  The optional
`file: UploadFile = File(None)` parameter of `/upload` is accepted but
never read by the handler, so it does not appear in the embedding. -/

structure Order where
  wallet_address : String
  vendor_name : String
  item : String
  delivery_address : String
deriving DecidableEq

structure Receipt where
  wallet_address : String
  order_id : String
  vendor : String
  item : String
  price_kwd : ℚ
deriving DecidableEq

/-- A parsed data row of `vendors.csv`. -/
structure VendorRow where
  vendor_name : String
  vendor_wallet : String
  icon : String
deriving DecidableEq

/-- A data row of `orders.csv`, as written by `create_order` (the
numeric lat/lon cells kept typed rather than serialized). -/
structure OrderRow where
  order_id : String
  vendor : String
  item : String
  address : String
  user_wallet : String
  lat : ℚ
  lon : ℚ
  timestamp : String
deriving DecidableEq

/-- A data row of `uploads.csv`, as written by `upload_receipt`. -/
structure UploadRow where
  order_id : String
  vendor : String
  user_wallet : String
  timestamp : String
  item : String
  price_kwd : ℚ
  category : String
  icon : String
deriving DecidableEq

/-- Outcome of the external `geolocator.geocode(...)` call: a location,
no match (`None`), or a raised exception. -/
inductive GeoOutcome where
  | found (lat lon : ℚ)
  | noResult
  | raised (msg : String)
deriving DecidableEq

/-- Lines 101-104: the location's coordinates, or the `(0, 0)` fallback
when the lookup returned no match or raised. -/
def geoCoords : GeoOutcome → ℚ × ℚ
  | .found lat lon => (lat, lon)
  | .noResult => (0, 0)
  | .raised _ => (0, 0)

/-- A side effect performed by a POST handler, in program order. -/
inductive Effect where
  | geocodeCall (address : String)
  | appendOrder (row : OrderRow)
  | appendUpload (row : UploadRow)
deriving DecidableEq

/-- Responses of the four endpoints.  `httpError` models a raised
`HTTPException` with its status code and detail message. -/
inductive ApiResponse where
  | orderSuccess (order_id : String) (reward : Nat)
  | uploadSuccess (reward : Nat)
  | vendorsOk (mapping : List (String × String × String))
  | marketOk (rows : List UploadRow)
  | httpError (status : Nat) (detail : String)
deriving DecidableEq

/-- Did the request get past validation (any non-error response)? -/
def accepted : ApiResponse → Bool
  | .httpError _ _ => false
  | _ => true

/-- Is the response a client error (status 400)? -/
def is400 : ApiResponse → Bool
  | .httpError 400 _ => true
  | _ => false

/-- Is the response a server error (status 500)? -/
def is500 : ApiResponse → Bool
  | .httpError 500 _ => true
  | _ => false

/-- Model of starlette's `HTTPException.__str__`:
`f"{self.status_code}: {self.detail}"` (used when a handler's blanket
`except` re-wraps an `HTTPException` raised inside its `try`). -/
def strOfHTTPException (status : Nat) (detail : String) : String :=
  toString status ++ ": " ++ detail

/-! ## Domain helpers -/

/-- Lines 48-55: `categorize_receipt`. -/
def categorize_receipt (vendor : String) : String × String :=
  let v := pyLower vendor
  if pyIn "mcdonald" v || pyIn "burger" v then ("Fast Food", "🍔")
  else if pyIn "healthy" v || pyIn "salad" v || pyIn "bowl" v then ("Healthy", "🥗")
  else ("Other", "🧾")

/-- Line 97: `order_id = f"{order.vendor_name}-{sha256(order.item.encode()).hexdigest()[:8]}"`. -/
def order_id (vendor_name item : String) : String :=
  vendor_name ++ "-" ++ (sha256HexDigest item).take 8

/-! ## POST handlers

Each returns the response together with the ordered list of side effects
it performed. -/

/-- Lines 90-113: `create_order`.  `geo` is the outcome the geocoder
would deliver if called; `now` is `datetime.now().isoformat()`. -/
def create_order (o : Order) (geo : GeoOutcome) (now : String) :
    ApiResponse × List Effect :=
  if !(pyTruthyStr o.wallet_address && pyTruthyStr o.vendor_name &&
       pyTruthyStr o.item && pyTruthyStr o.delivery_address) then
    (.httpError 400 "Please fill in all fields", [])
  else if !(pyStartsWith o.wallet_address "0x") || o.wallet_address.length != 42 then
    (.httpError 400 "Invalid wallet address", [])
  else
    let oid := order_id o.vendor_name o.item
    let c := geoCoords geo
    (.orderSuccess oid 210000,
     [.geocodeCall o.delivery_address,
      .appendOrder ⟨oid, o.vendor_name, o.item, o.delivery_address,
                    o.wallet_address, c.1, c.2, now⟩])

/-- Lines 115-130: `upload_receipt`.  Note the presence check runs
`all([...])` over the five fields, so `price_kwd == 0.0` (falsy) trips
the missing-fields branch. -/
def upload_receipt (r : Receipt) (now : String) : ApiResponse × List Effect :=
  if !(pyTruthyStr r.wallet_address && pyTruthyStr r.order_id &&
       pyTruthyStr r.vendor && pyTruthyStr r.item && pyTruthyFloat r.price_kwd) then
    (.httpError 400 "Please fill in all fields", [])
  else if !(pyStartsWith r.wallet_address "0x") || r.wallet_address.length != 42 then
    (.httpError 400 "Invalid wallet address", [])
  else
    let ci := categorize_receipt r.vendor
    (.uploadSuccess 100000,
     [.appendUpload ⟨r.order_id, r.vendor, r.wallet_address, now,
                     r.item, r.price_kwd, ci.1, ci.2⟩])

/-! ## GET handlers -/

/-- Lines 70-78: `get_vendors`.  When the file is missing the inner 500
`HTTPException` is caught by the blanket `except` and re-wrapped.  When
vendor names are duplicated, pandas' `to_dict(orient="index")` raises
`ValueError: DataFrame index must be unique for orient='index'.` (its
documented behavior for a non-unique index), which the blanket `except`
turns into a 500; with unique names it returns the index-keyed mapping
in row order. -/
def get_vendors (fileExists : Bool) (rows : List VendorRow) : ApiResponse :=
  if !fileExists then
    .httpError 500
      ("Error reading vendors: " ++ strOfHTTPException 500 "Vendors file not found")
  else if (rows.map VendorRow.vendor_name).Nodup then
    .vendorsOk (rows.map fun r => (r.vendor_name, r.vendor_wallet, r.icon))
  else
    .httpError 500
      "Error reading vendors: DataFrame index must be unique for orient='index'."

/-- Lines 132-140: `get_market`: missing file yields `[]`, otherwise all
upload rows in file order. -/
def get_market (fileExists : Bool) (rows : List UploadRow) : ApiResponse :=
  if !fileExists then .marketOk []
  else .marketOk rows

/-! ## Storage model (for the header-row invariant)

Each CSV file is a list of entries, an entry being the file's header row
or a typed data row.  `initDisk` is the state lines 29-46 produce on a
fresh deployment (no file present): each file is created with its header
row written first, and the two vendor seed rows are appended afterwards.
`items.csv` is only ever read, and data rows of `items.csv` are plain
cell lists since no handler writes them. -/

inductive VendorsEntry where
  | header
  | row (r : VendorRow)
deriving DecidableEq

inductive ItemsEntry where
  | header
  | row (cells : List String)
deriving DecidableEq

inductive OrdersEntry where
  | header
  | row (r : OrderRow)
deriving DecidableEq

inductive UploadsEntry where
  | header
  | row (r : UploadRow)
deriving DecidableEq

structure Disk where
  vendors : List VendorsEntry
  items : List ItemsEntry
  orders : List OrdersEntry
  uploads : List UploadsEntry
deriving DecidableEq

/-- The state of the four files after the startup loop (lines 29-46) on
a fresh deployment: header first, then for `vendors.csv` the two seed
rows appended. -/
def initDisk : Disk where
  vendors := [.header,
              .row ⟨"FluxEats", "0xVendor1", "🌌"⟩,
              .row ⟨"NebulaBites", "0xVendor2", "☄️"⟩]
  items := [.header]
  orders := [.header]
  uploads := [.header]

/-- Apply a handler's effect list to the disk: each append effect adds
one data row at the end of its file; the geocoding call touches no file. -/
def applyEffects (d : Disk) : List Effect → Disk
  | [] => d
  | .geocodeCall _ :: es => applyEffects d es
  | .appendOrder r :: es =>
      applyEffects { d with orders := d.orders ++ [.row r] } es
  | .appendUpload r :: es =>
      applyEffects { d with uploads := d.uploads ++ [.row r] } es

/-- Disk states reachable from a fresh deployment: the startup state,
followed by any sequence of `/order` and `/upload` requests (the GET
handlers never write). -/
inductive Reachable : Disk → Prop
  | init : Reachable initDisk
  | orderStep (d : Disk) (o : Order) (geo : GeoOutcome) (now : String) :
      Reachable d → Reachable (applyEffects d (create_order o geo now).2)
  | uploadStep (d : Disk) (r : Receipt) (now : String) :
      Reachable d → Reachable (applyEffects d (upload_receipt r now).2)

/-- The invariant: each file consists of its header row followed by data
rows only (in particular the header row is present before any data row). -/
def headerFirst (d : Disk) : Prop :=
  (∃ vs : List VendorRow,
      d.vendors = VendorsEntry.header :: vs.map VendorsEntry.row) ∧
  (∃ cs : List (List String),
      d.items = ItemsEntry.header :: cs.map ItemsEntry.row) ∧
  (∃ os : List OrderRow,
      d.orders = OrdersEntry.header :: os.map OrdersEntry.row) ∧
  (∃ us : List UploadRow,
      d.uploads = UploadsEntry.header :: us.map UploadsEntry.row)

lemma headerFirst_applyEffects (es : List Effect) (d : Disk)
    (hd : headerFirst d) : headerFirst (applyEffects d es) := by
  induction es generalizing d with
  | nil => exact hd
  | cons e es ih =>
    cases e with
    | geocodeCall a => exact ih d hd
    | appendOrder r =>
      refine ih _ ?_
      obtain ⟨⟨vs, hv⟩, ⟨cs, hi⟩, ⟨os, ho⟩, ⟨us, hu⟩⟩ := hd
      exact ⟨⟨vs, hv⟩, ⟨cs, hi⟩,
        ⟨os ++ [r], by simp [ho]⟩, ⟨us, hu⟩⟩
    | appendUpload r =>
      refine ih _ ?_
      obtain ⟨⟨vs, hv⟩, ⟨cs, hi⟩, ⟨os, ho⟩, ⟨us, hu⟩⟩ := hd
      exact ⟨⟨vs, hv⟩, ⟨cs, hi⟩, ⟨os, ho⟩,
        ⟨us ++ [r], by simp [hu]⟩⟩

lemma headerFirst_initDisk : headerFirst initDisk :=
  ⟨⟨[⟨"FluxEats", "0xVendor1", "🌌"⟩, ⟨"NebulaBites", "0xVendor2", "☄️"⟩], rfl⟩,
   ⟨[], rfl⟩, ⟨[], rfl⟩, ⟨[], rfl⟩⟩

/-! ## Helper lemmas about the handlers -/

lemma pyTruthyStr_true {s : String} (h : s ≠ "") : pyTruthyStr s = true := by
  simp [pyTruthyStr, h]

lemma pyTruthyStr_empty : pyTruthyStr "" = false := by decide

lemma pyTruthyFloat_true {x : ℚ} (h : x ≠ 0) : pyTruthyFloat x = true := by
  simp [pyTruthyFloat, h]

lemma ne_empty_of_length42 {s : String} (h : s.length = 42) : s ≠ "" := by
  intro he
  subst he
  simp at h

lemma pyStartsWith_empty_0x : pyStartsWith "" "0x" = false := by decide

/-- A request that fails the presence check is rejected before anything
else happens. -/
lemma create_order_eq_missing (o : Order) (geo : GeoOutcome) (now : String)
    (h : pyTruthyStr o.wallet_address = false ∨ pyTruthyStr o.vendor_name = false ∨
         pyTruthyStr o.item = false ∨ pyTruthyStr o.delivery_address = false) :
    create_order o geo now = (.httpError 400 "Please fill in all fields", []) := by
  unfold create_order
  rcases h with h | h | h | h <;> simp [h]

lemma upload_receipt_eq_missing (r : Receipt) (now : String)
    (h : pyTruthyStr r.wallet_address = false ∨ pyTruthyStr r.order_id = false ∨
         pyTruthyStr r.vendor = false ∨ pyTruthyStr r.item = false ∨
         pyTruthyFloat r.price_kwd = false) :
    upload_receipt r now = (.httpError 400 "Please fill in all fields", []) := by
  unfold upload_receipt
  rcases h with h | h | h | h | h <;> simp [h]

/-- A request with non-empty fields but a malformed wallet is rejected on
the wallet check, still with no effects. -/
lemma create_order_eq_invalid_wallet (o : Order) (geo : GeoOutcome) (now : String)
    (hw : o.wallet_address ≠ "") (hv : o.vendor_name ≠ "") (hi : o.item ≠ "")
    (ha : o.delivery_address ≠ "")
    (hbad : (pyStartsWith o.wallet_address "0x" && (o.wallet_address.length == 42)) = false) :
    create_order o geo now = (.httpError 400 "Invalid wallet address", []) := by
  unfold create_order
  rw [pyTruthyStr_true hw, pyTruthyStr_true hv, pyTruthyStr_true hi, pyTruthyStr_true ha]
  rcases Bool.and_eq_false_iff.mp hbad with h | h
  · simp [h]
  · rw [beq_eq_false_iff_ne] at h
    simp [h]

lemma upload_receipt_eq_invalid_wallet (r : Receipt) (now : String)
    (hw : r.wallet_address ≠ "") (ho : r.order_id ≠ "") (hv : r.vendor ≠ "")
    (hi : r.item ≠ "") (hp : r.price_kwd ≠ 0)
    (hbad : (pyStartsWith r.wallet_address "0x" && (r.wallet_address.length == 42)) = false) :
    upload_receipt r now = (.httpError 400 "Invalid wallet address", []) := by
  unfold upload_receipt
  rw [pyTruthyStr_true hw, pyTruthyStr_true ho, pyTruthyStr_true hv,
      pyTruthyStr_true hi, pyTruthyFloat_true hp]
  rcases Bool.and_eq_false_iff.mp hbad with h | h
  · simp [h]
  · rw [beq_eq_false_iff_ne] at h
    simp [h]

/-- A fully valid order request succeeds, calling the geocoder and then
appending one row whose coordinates come from `geoCoords`. -/
lemma create_order_eq_valid (o : Order) (geo : GeoOutcome) (now : String)
    (hsw : pyStartsWith o.wallet_address "0x" = true) (hlen : o.wallet_address.length = 42)
    (hv : o.vendor_name ≠ "") (hi : o.item ≠ "") (ha : o.delivery_address ≠ "") :
    create_order o geo now
      = (.orderSuccess (order_id o.vendor_name o.item) 210000,
         [.geocodeCall o.delivery_address,
          .appendOrder ⟨order_id o.vendor_name o.item, o.vendor_name, o.item,
                        o.delivery_address, o.wallet_address,
                        (geoCoords geo).1, (geoCoords geo).2, now⟩]) := by
  unfold create_order
  rw [pyTruthyStr_true (ne_empty_of_length42 hlen), pyTruthyStr_true hv,
      pyTruthyStr_true hi, pyTruthyStr_true ha]
  simp [hsw, hlen]

/-- A fully valid upload request succeeds and appends one row carrying
the derived category and icon. -/
lemma upload_receipt_eq_valid (r : Receipt) (now : String)
    (hsw : pyStartsWith r.wallet_address "0x" = true) (hlen : r.wallet_address.length = 42)
    (ho : r.order_id ≠ "") (hv : r.vendor ≠ "") (hi : r.item ≠ "") (hp : r.price_kwd ≠ 0) :
    upload_receipt r now
      = (.uploadSuccess 100000,
         [.appendUpload ⟨r.order_id, r.vendor, r.wallet_address, now, r.item, r.price_kwd,
                         (categorize_receipt r.vendor).1, (categorize_receipt r.vendor).2⟩]) := by
  unfold upload_receipt
  rw [pyTruthyStr_true (ne_empty_of_length42 hlen), pyTruthyStr_true ho,
      pyTruthyStr_true hv, pyTruthyStr_true hi, pyTruthyFloat_true hp]
  simp [hsw, hlen]

/-- Every run of `create_order` lands in exactly one of the three source
branches: missing-fields 400, invalid-wallet 400, or success. -/
lemma create_order_cases (o : Order) (geo : GeoOutcome) (now : String) :
    create_order o geo now = (.httpError 400 "Please fill in all fields", []) ∨
    create_order o geo now = (.httpError 400 "Invalid wallet address", []) ∨
    create_order o geo now
      = (.orderSuccess (order_id o.vendor_name o.item) 210000,
         [.geocodeCall o.delivery_address,
          .appendOrder ⟨order_id o.vendor_name o.item, o.vendor_name, o.item,
                        o.delivery_address, o.wallet_address,
                        (geoCoords geo).1, (geoCoords geo).2, now⟩]) := by
  unfold create_order
  split
  · exact Or.inl rfl
  · split
    · exact Or.inr (Or.inl rfl)
    · exact Or.inr (Or.inr rfl)

lemma upload_receipt_cases (r : Receipt) (now : String) :
    upload_receipt r now = (.httpError 400 "Please fill in all fields", []) ∨
    upload_receipt r now = (.httpError 400 "Invalid wallet address", []) ∨
    upload_receipt r now
      = (.uploadSuccess 100000,
         [.appendUpload ⟨r.order_id, r.vendor, r.wallet_address, now, r.item, r.price_kwd,
                         (categorize_receipt r.vendor).1, (categorize_receipt r.vendor).2⟩]) := by
  unfold upload_receipt
  split
  · exact Or.inl rfl
  · split
    · exact Or.inr (Or.inl rfl)
    · exact Or.inr (Or.inr rfl)

/-! ## Sanity checks of the SHA-256 model against FIPS 180-4 test vectors -/

example : sha256HexDigest "abc" =
    "ba7816bf8f01cfea414140de5dae2223b00361a396177a9cb410ff61f20015ad" := by rfl

example : sha256HexDigest "" =
    "e3b0c44298fc1c149afbf4c8996fb92427ae41e4649b934ca495991b7852b855" := by rfl

/-! ## The claims -/

/-- C1 (counterexample): a receipt whose other fields are valid but whose
`price_kwd` is zero IS rejected — `0.0` is falsy, so `all([...])` fails
and the handler returns the 400 missing-fields error, contradicting the
claim that zero prices are accepted. -/
theorem upload_zero_price_rejected :
    accepted (upload_receipt
        ⟨"0x1111111111111111111111111111111111111111", "order-1", "FluxEats",
         "Burger Combo", 0⟩ "2025-01-01T00:00:00").1 = false ∧
    (upload_receipt
        ⟨"0x1111111111111111111111111111111111111111", "order-1", "FluxEats",
         "Burger Combo", 0⟩ "2025-01-01T00:00:00").1
      = .httpError 400 "Please fill in all fields" := by
  constructor
  · decide
  · decide

/-- C1 (amended): POST /upload has no positivity check on `price_kwd`:
any non-zero price (negative ones included) passes validation when the
other fields are valid; a price of exactly zero is rejected with the 400
missing-fields message, because `0.0` is falsy in the `all([...])`
presence check. -/
theorem upload_price_truthiness (w oid vendor item : String) (price : ℚ) (now : String)
    (hsw : pyStartsWith w "0x" = true) (hlen : w.length = 42)
    (ho : oid ≠ "") (hv : vendor ≠ "") (hi : item ≠ "") :
    (price ≠ 0 →
      accepted (upload_receipt ⟨w, oid, vendor, item, price⟩ now).1 = true) ∧
    (price = 0 →
      upload_receipt ⟨w, oid, vendor, item, price⟩ now
        = (.httpError 400 "Please fill in all fields", [])) := by
  constructor
  · intro hp
    rw [upload_receipt_eq_valid ⟨w, oid, vendor, item, price⟩ now hsw hlen ho hv hi hp]
    rfl
  · intro hp
    refine upload_receipt_eq_missing _ _ (Or.inr (Or.inr (Or.inr (Or.inr ?_))))
    simp [pyTruthyFloat, hp]

/-- C1 (witness for the amended claim): a negative price is accepted. -/
theorem upload_price_truthiness_witness :
    accepted (upload_receipt
        ⟨"0x1111111111111111111111111111111111111111", "order-1", "FluxEats",
         "Burger Combo", -5⟩ "2025-01-01T00:00:00").1 = true :=
  (upload_price_truthiness _ _ _ _ _ _ (by decide) (by decide)
      (by decide) (by decide) (by decide)).1 (by norm_num)

/-- C2: with all other fields non-empty (and, for /upload, a truthy
price), a request is accepted exactly when the wallet string starts with
"0x" and has length 42; otherwise both endpoints reject it with a 400
error.  No character-set restriction applies beyond the prefix. -/
theorem wallet_shape_validation
    (w vendor item addr oid rvendor ritem : String) (price : ℚ)
    (geo : GeoOutcome) (now unow : String)
    (hv : vendor ≠ "") (hi : item ≠ "") (ha : addr ≠ "")
    (ho : oid ≠ "") (hrv : rvendor ≠ "") (hri : ritem ≠ "") (hp : price ≠ 0) :
    (accepted (create_order ⟨w, vendor, item, addr⟩ geo now).1
        = (pyStartsWith w "0x" && (w.length == 42))) ∧
    (accepted (upload_receipt ⟨w, oid, rvendor, ritem, price⟩ unow).1
        = (pyStartsWith w "0x" && (w.length == 42))) ∧
    ((pyStartsWith w "0x" && (w.length == 42)) = false →
      is400 (create_order ⟨w, vendor, item, addr⟩ geo now).1 = true ∧
      is400 (upload_receipt ⟨w, oid, rvendor, ritem, price⟩ unow).1 = true) := by
  by_cases hgood : (pyStartsWith w "0x" && (w.length == 42)) = true
  · obtain ⟨hsw, hlen⟩ : pyStartsWith w "0x" = true ∧ w.length = 42 := by
      simpa using hgood
    rw [create_order_eq_valid ⟨w, vendor, item, addr⟩ geo now hsw hlen hv hi ha,
        upload_receipt_eq_valid ⟨w, oid, rvendor, ritem, price⟩ unow hsw hlen ho hrv hri hp]
    refine ⟨by simp [accepted, hgood], by simp [accepted, hgood], ?_⟩
    intro hq
    rw [hgood] at hq
    exact absurd hq (by simp)
  · have hbad : (pyStartsWith w "0x" && (w.length == 42)) = false := by
      revert hgood
      cases pyStartsWith w "0x" && (w.length == 42) <;> simp
    by_cases hwe : w = ""
    · subst hwe
      rw [create_order_eq_missing _ _ _ (Or.inl pyTruthyStr_empty),
          upload_receipt_eq_missing _ _ (Or.inl pyTruthyStr_empty)]
      exact ⟨by simp [accepted, hbad], by simp [accepted, hbad],
             fun _ => ⟨by simp [is400], by simp [is400]⟩⟩
    · rw [create_order_eq_invalid_wallet ⟨w, vendor, item, addr⟩ geo now hwe hv hi ha hbad,
          upload_receipt_eq_invalid_wallet ⟨w, oid, rvendor, ritem, price⟩ unow hwe ho hrv hri hp hbad]
      exact ⟨by simp [accepted, hbad], by simp [accepted, hbad],
             fun _ => ⟨by simp [is400], by simp [is400]⟩⟩

/-- C2 (witness): a well-shaped 42-character `0x...` wallet is accepted. -/
theorem wallet_shape_validation_witness :
    accepted (create_order
        ⟨"0x1111111111111111111111111111111111111111", "FluxEats", "Burger Combo",
         "Kuwait City"⟩ .noResult "2025-01-01T00:00:00").1 = true := by
  have h := (wallet_shape_validation
      "0x1111111111111111111111111111111111111111" "FluxEats" "Burger Combo"
      "Kuwait City" "order-1" "FluxEats" "Burger Combo" 1 .noResult
      "2025-01-01T00:00:00" "2025-01-01T00:00:00"
      (by decide) (by decide) (by decide) (by decide) (by decide) (by decide)
      (by norm_num)).1
  rw [h]
  decide

/-- C3: on a valid order, the returned order_id is the vendor name, a
hyphen, and the first 8 hex characters of the SHA-256 digest of the item
name; and the whole success response is a function of vendor and item
only (wallet, address, geocoder outcome and timestamp do not affect it). -/
theorem order_id_formula (o : Order) (geo : GeoOutcome) (now : String)
    (hsw : pyStartsWith o.wallet_address "0x" = true)
    (hlen : o.wallet_address.length = 42)
    (hv : o.vendor_name ≠ "") (hi : o.item ≠ "") (ha : o.delivery_address ≠ "") :
    (create_order o geo now).1
      = .orderSuccess
          (o.vendor_name ++ "-" ++ (hexOfBytes (sha256Bytes (pyEncode o.item))).take 8)
          210000 ∧
    ∀ (o2 : Order) (geo2 : GeoOutcome) (now2 : String),
      pyStartsWith o2.wallet_address "0x" = true → o2.wallet_address.length = 42 →
      o2.delivery_address ≠ "" →
      o2.vendor_name = o.vendor_name → o2.item = o.item →
      (create_order o2 geo2 now2).1 = (create_order o geo now).1 := by
  constructor
  · rw [create_order_eq_valid o geo now hsw hlen hv hi ha]
    rfl
  · intro o2 geo2 now2 hsw2 hlen2 ha2 hveq hieq
    rw [create_order_eq_valid o geo now hsw hlen hv hi ha,
        create_order_eq_valid o2 geo2 now2 hsw2 hlen2
          (by rw [hveq]; exact hv) (by rw [hieq]; exact hi) ha2]
    simp [hveq, hieq]

/-- C3 (witness): the ид of ("FluxEats", "Burger Combo") is exactly
"FluxEats-872c9d89" (matching `hashlib`), independently of wallet,
address, geocoder outcome and timestamp. -/
theorem order_id_formula_witness :
    (create_order
        ⟨"0x1111111111111111111111111111111111111111", "FluxEats", "Burger Combo",
         "Kuwait City"⟩ .noResult "2025-01-01T00:00:00").1
      = .orderSuccess "FluxEats-872c9d89" 210000 ∧
    (create_order
        ⟨"0x2222222222222222222222222222222222222222", "FluxEats", "Burger Combo",
         "Somewhere else"⟩ (.found 29 48) "2026-06-06T06:06:06").1
      = (create_order
        ⟨"0x1111111111111111111111111111111111111111", "FluxEats", "Burger Combo",
         "Kuwait City"⟩ .noResult "2025-01-01T00:00:00").1 := by
  have h := order_id_formula
      ⟨"0x1111111111111111111111111111111111111111", "FluxEats", "Burger Combo",
       "Kuwait City"⟩ .noResult "2025-01-01T00:00:00"
      (by decide) (by decide) (by decide) (by decide) (by decide)
  constructor
  · rw [h.1]
    rfl
  · exact h.2 _ (.found 29 48) _ (by decide) (by decide) (by decide) rfl rfl

/-- C4: categorization lower-cases the vendor and applies the keyword
rules in fixed order — "mcdonald"/"burger" give ("Fast Food", 🍔), else
"healthy"/"salad"/"bowl" give ("Healthy", 🥗), else ("Other", 🧾); in
particular a vendor containing both "burger" and "salad" resolves to
("Fast Food", 🍔) because that rule is checked first. -/
theorem categorize_ordered_rules (v : String) :
    categorize_receipt v
      = (if pyIn "mcdonald" (pyLower v) || pyIn "burger" (pyLower v) then
           ("Fast Food", "🍔")
         else if pyIn "healthy" (pyLower v) || pyIn "salad" (pyLower v) ||
                 pyIn "bowl" (pyLower v) then ("Healthy", "🥗")
         else ("Other", "🧾")) ∧
    (pyIn "burger" (pyLower v) = true ∧ pyIn "salad" (pyLower v) = true →
      categorize_receipt v = ("Fast Food", "🍔")) := by
  refine ⟨rfl, ?_⟩
  rintro ⟨hb, -⟩
  simp [categorize_receipt, hb]

/-- C4 (witness): "Burger Salad Bar" contains both keywords and resolves
to Fast Food. -/
theorem categorize_ordered_rules_witness :
    pyIn "burger" (pyLower "Burger Salad Bar") = true ∧
    pyIn "salad" (pyLower "Burger Salad Bar") = true ∧
    categorize_receipt "Burger Salad Bar" = ("Fast Food", "🍔") :=
  ⟨by decide, by decide,
   (categorize_ordered_rules "Burger Salad Bar").2 ⟨by decide, by decide⟩⟩

/-- C5: when the geocoding lookup returns no result or raises, a valid
order still succeeds, and the appended row records latitude 0 and
longitude 0. -/
theorem geocode_failure_fallback (o : Order) (geo : GeoOutcome) (now : String)
    (hsw : pyStartsWith o.wallet_address "0x" = true)
    (hlen : o.wallet_address.length = 42)
    (hv : o.vendor_name ≠ "") (hi : o.item ≠ "") (ha : o.delivery_address ≠ "")
    (hfail : geo = .noResult ∨ ∃ m, geo = .raised m) :
    create_order o geo now
      = (.orderSuccess (order_id o.vendor_name o.item) 210000,
         [.geocodeCall o.delivery_address,
          .appendOrder ⟨order_id o.vendor_name o.item, o.vendor_name, o.item,
                        o.delivery_address, o.wallet_address, 0, 0, now⟩]) := by
  rw [create_order_eq_valid o geo now hsw hlen hv hi ha]
  rcases hfail with h | ⟨m, h⟩ <;> subst h <;> rfl

/-- C5 (witness): a concrete valid order with a no-match geocode result
succeeds with the zero coordinates recorded. -/
theorem geocode_failure_fallback_witness :
    create_order
        ⟨"0x1111111111111111111111111111111111111111", "FluxEats", "Pizza",
         "Nowhere"⟩ .noResult "2025-01-01T00:00:00"
      = (.orderSuccess "FluxEats-f1295881" 210000,
         [.geocodeCall "Nowhere",
          .appendOrder ⟨"FluxEats-f1295881", "FluxEats", "Pizza", "Nowhere",
                        "0x1111111111111111111111111111111111111111", 0, 0,
                        "2025-01-01T00:00:00"⟩]) := by
  rw [geocode_failure_fallback _ .noResult _ (by decide) (by decide) (by decide)
      (by decide) (by decide) (Or.inl rfl)]
  rfl

/-- C6: with the uploads file absent GET /market returns an empty list,
while with the vendors file absent GET /vendors fails with a 500 error —
the two read endpoints are asymmetric on a missing store. -/
theorem missing_store_asymmetry :
    (∀ rows : List UploadRow, get_market false rows = .marketOk []) ∧
    (∀ rows : List VendorRow, is500 (get_vendors false rows) = true) :=
  ⟨fun _ => rfl, fun _ => rfl⟩

/-- C7: whenever POST /order or POST /upload rejects a request with a
400 validation error, its effect list is empty: no row has been
appended to any file and no geocoding call has been made. -/
theorem validation_no_side_effects :
    (∀ (o : Order) (geo : GeoOutcome) (now : String),
      is400 (create_order o geo now).1 = true → (create_order o geo now).2 = []) ∧
    (∀ (r : Receipt) (now : String),
      is400 (upload_receipt r now).1 = true → (upload_receipt r now).2 = []) := by
  constructor
  · intro o geo now h
    rcases create_order_cases o geo now with hc | hc | hc
    · rw [hc]
    · rw [hc]
    · rw [hc] at h
      exact absurd h (by simp [is400])
  · intro r now h
    rcases upload_receipt_cases r now with hc | hc | hc
    · rw [hc]
    · rw [hc]
    · rw [hc] at h
      exact absurd h (by simp [is400])

/-- C7 (witness): a request with a malformed wallet is rejected with a
400 and performs no effects. -/
theorem validation_no_side_effects_witness :
    is400 (create_order
        ⟨"1x1111111111111111111111111111111111111111", "FluxEats", "Burger Combo",
         "Kuwait City"⟩ .noResult "2025-01-01T00:00:00").1 = true ∧
    (create_order
        ⟨"1x1111111111111111111111111111111111111111", "FluxEats", "Burger Combo",
         "Kuwait City"⟩ .noResult "2025-01-01T00:00:00").2 = [] :=
  ⟨by decide,
   validation_no_side_effects.1
     ⟨"1x1111111111111111111111111111111111111111", "FluxEats", "Burger Combo",
      "Kuwait City"⟩ .noResult "2025-01-01T00:00:00" (by decide)⟩

/-- C8: in every disk state reachable from a fresh deployment — startup
creates each file with its header row first, the vendor seed rows only
after the header — every storage file is its header row followed by data
rows only, since the handlers only ever append data rows. -/
theorem header_row_invariant (d : Disk) (hreach : Reachable d) : headerFirst d := by
  induction hreach with
  | init => exact headerFirst_initDisk
  | orderStep d o geo now _ ih => exact headerFirst_applyEffects _ _ ih
  | uploadStep d r now _ ih => exact headerFirst_applyEffects _ _ ih

/-- C8 (witness): the startup state itself satisfies the invariant. -/
theorem header_row_invariant_witness : headerFirst initDisk :=
  header_row_invariant initDisk Reachable.init

/-- C9 (counterexample): with two rows sharing the vendor name "A", GET
/vendors does not return the last-one-wins mapping; pandas'
`to_dict(orient="index")` raises on the non-unique index and the handler
returns a 500 error. -/
theorem vendors_duplicate_name_500 :
    get_vendors true [⟨"A", "w1", "i1"⟩, ⟨"A", "w2", "i2"⟩]
        ≠ .vendorsOk [("A", "w2", "i2")] ∧
    get_vendors true [⟨"A", "w1", "i1"⟩, ⟨"A", "w2", "i2"⟩]
        = .httpError 500
            "Error reading vendors: DataFrame index must be unique for orient='index'." := by
  constructor
  · decide
  · decide

/-- C9 (amended): GET /vendors returns the mapping from vendor name to
its remaining attributes (wallet, icon) when the vendor names are
pairwise distinct; a file with a duplicated vendor name instead yields a
500 error (pandas `to_dict(orient="index")` requires a unique index),
not a last-one-wins mapping. -/
theorem vendors_mapping_behavior (rows : List VendorRow)
    (huniq : (rows.map VendorRow.vendor_name).Nodup) :
    get_vendors true rows
      = .vendorsOk (rows.map fun r => (r.vendor_name, r.vendor_wallet, r.icon)) ∧
    ∀ rows2 : List VendorRow, ¬ (rows2.map VendorRow.vendor_name).Nodup →
      is500 (get_vendors true rows2) = true := by
  constructor
  · simp [get_vendors, huniq]
  · intro rows2 h2
    simp [get_vendors, h2, is500]

/-- C9 (witness): on the two seed rows (distinct names) the full mapping
is returned. -/
theorem vendors_mapping_behavior_witness :
    get_vendors true [⟨"FluxEats", "0xVendor1", "🌌"⟩, ⟨"NebulaBites", "0xVendor2", "☄️"⟩]
      = .vendorsOk [("FluxEats", "0xVendor1", "🌌"), ("NebulaBites", "0xVendor2", "☄️")] :=
  (vendors_mapping_behavior _ (by decide)).1

/-- C10: an empty wallet address makes the field-presence check fail
first, so both POST endpoints answer 400 with the missing-field message
"Please fill in all fields", never the invalid-wallet message. -/
theorem empty_wallet_missing_field_message :
    (∀ (vendor item addr : String) (geo : GeoOutcome) (now : String),
      create_order ⟨"", vendor, item, addr⟩ geo now
        = (.httpError 400 "Please fill in all fields", [])) ∧
    (∀ (oid vendor item : String) (price : ℚ) (now : String),
      upload_receipt ⟨"", oid, vendor, item, price⟩ now
        = (.httpError 400 "Please fill in all fields", [])) := by
  constructor
  · intro vendor item addr geo now
    exact create_order_eq_missing _ _ _ (Or.inl pyTruthyStr_empty)
  · intro oid vendor item price now
    exact upload_receipt_eq_missing _ _ (Or.inl pyTruthyStr_empty)
